import Mathlib

/-!
Verification development for the AI VidCV backend (`main.py`).

The core under verification is the video-creation pipeline
(`create_video`), together with its helpers `_build_prompt` and
`_call_videotok_api`, and the resume-extraction endpoint
`upload_resume`.  Python values are embedded shallowly:

* machine-level effects (the outbound HTTP call, the PDF/DOCX parsing
  libraries) are parameters describing the environment's observable
  outcome;
* persistence is explicit state passing over a `Store` value plus an
  effect trace emitted by the pipeline;
* Python string truthiness (`if s:`) is `optTruthy`;
* `raise HTTPException(...)` is `Except.error`.
-/

/-- `plan: Literal['free','premium','pro']` from `VideoRequest`. -/
inductive Plan
  | free
  | premium
  | pro
deriving DecidableEq, Repr

/-- `status: Literal['queued','processing','completed','failed']` from `VideoRecord`. -/
inductive Status
  | queued
  | processing
  | completed
  | failed
deriving DecidableEq, Repr

/-- The pydantic `VideoRequest` model (main.py lines 25-33). -/
structure VideoRequest where
  full_name : Option String := none
  target_role : String
  duration_sec : Int
  style : Option String := none
  tone : Option String := none
  colors : Option String := none
  resume_text : Option String := none
  plan : Plan := Plan.free
deriving DecidableEq, Repr

/-- The pydantic `VideoRecord` model (main.py lines 36-43). -/
structure VideoRecord where
  request_id : String
  status : Status
  video_url : Option String := none
  thumbnail_url : Option String := none
  plan : Plan
  qr_available : Bool := false
  downloadable : Bool := false
deriving DecidableEq, Repr

/-- FastAPI's `HTTPException(status_code=..., detail=...)`. -/
structure HTTPException where
  status_code : Nat
  detail : String
deriving DecidableEq, Repr

/-- Python truthiness of an optional string: `None` and `""` are falsy. -/
def optTruthy : Option String → Bool
  | none => false
  | some s => decide (s ≠ "")

/-- Python's slice `s[:n]` (characters, i.e. code points). -/
def py_take (s : String) (n : Nat) : String := String.mk (s.toList.take n)

/-- Python's `str.lower()` (ASCII letters, the only ones occurring here). -/
def py_lower (s : String) : String := String.mk (s.toList.map Char.toLower)

/-- The character class behind Python's `str.strip()` and
`str.isspace()` (CPython's Py_UNICODE_ISSPACE): the ASCII whitespace
characters 0x09-0x0D (tab, LF, vertical tab, form feed, CR) and 0x20,
the separators 0x1C-0x1F, NEL (0x85), NBSP (0xA0), and the Unicode
space characters 0x1680, 0x2000-0x200A, 0x2028, 0x2029, 0x202F, 0x205F
and 0x3000. -/
def py_isspace (c : Char) : Bool :=
  decide ((0x09 ≤ c.toNat ∧ c.toNat ≤ 0x0D) ∨
    (0x1C ≤ c.toNat ∧ c.toNat ≤ 0x20) ∨
    c.toNat = 0x85 ∨ c.toNat = 0xA0 ∨ c.toNat = 0x1680 ∨
    (0x2000 ≤ c.toNat ∧ c.toNat ≤ 0x200A) ∨
    c.toNat = 0x2028 ∨ c.toNat = 0x2029 ∨ c.toNat = 0x202F ∨
    c.toNat = 0x205F ∨ c.toNat = 0x3000)

/-- Python's `str.strip()`: remove leading and trailing whitespace. -/
def py_strip (s : String) : String :=
  String.mk (((s.toList.dropWhile py_isspace).reverse.dropWhile py_isspace).reverse)

/-- Python's `sep.join(xs)`. -/
def py_join (sep : String) (xs : List String) : String :=
  String.mk (List.intercalate sep.toList (xs.map String.toList))

/-- A parsed JSON body from the provider, restricted to the fields the
pipeline reads (`video_url`, `thumbnail_url`); an absent key is `none`. -/
structure ApiResult where
  video_url : Option String := none
  thumbnail_url : Option String := none
deriving DecidableEq, Repr

/-- Observable outcome of the single outbound HTTP POST made by
`_call_videotok_api`: either a response with a status code and a body
(`none` when `resp.json()` would fail to parse), or a transport-level
exception (connection error, timeout, ...). -/
inductive HttpOutcome
  | response (status_code : Nat) (body : Option ApiResult)
  | transportError
deriving DecidableEq, Repr

/-- `_call_videotok_api` (main.py lines 82-96): returns the parsed JSON
body on HTTP 200, `None` on any non-200 status, and `None` on any
exception (transport errors and unparseable bodies alike); it never
raises. -/
def call_videotok_api (outcome : HttpOutcome) : Option ApiResult :=
  match outcome with
  | HttpOutcome.response code body => if code = 200 then body else none
  | HttpOutcome.transportError => none

/-- `_build_prompt` (main.py lines 99-113). -/
def build_prompt (req : VideoRequest) : String :=
  let parts : List String :=
    [if optTruthy req.full_name then
       "Create a short CV video for " ++ req.full_name.getD "" ++ "."
     else
       "Create a short CV video.",
     "Target role: " ++ req.target_role ++ "."]
  let parts := if optTruthy req.style then
      parts ++ ["Style: " ++ req.style.getD "" ++ "."] else parts
  let parts := if optTruthy req.tone then
      parts ++ ["Tone: " ++ req.tone.getD "" ++ "."] else parts
  let parts := if optTruthy req.colors then
      parts ++ ["Brand colors: " ++ req.colors.getD "" ++ "."] else parts
  let parts := if optTruthy req.resume_text then
      parts ++ ["Highlights from resume: " ++ py_take (req.resume_text.getD "") 500 ++ "..."]
    else parts
  let parts := parts ++ ["Include dynamic captions and clean typography."]
  py_join " " parts

/-- Fields of a persisted document: either a dumped `VideoRequest` or a
dumped `VideoRecord` (the only two shapes `create_video` writes). -/
inductive StoredFields
  | request (r : VideoRequest)
  | record (r : VideoRecord)
deriving DecidableEq, Repr

/-- One persisted document: collection name plus fields. -/
structure StoredDoc where
  collection : String
  fields : StoredFields
deriving DecidableEq, Repr

/-- The Record Store's state: an insertion counter used to generate
fresh identifiers, and the append-only list of persisted documents. -/
structure Store where
  next_id : Nat := 0
  docs : List StoredDoc := []
deriving DecidableEq, Repr

/-- Modelled from the spec: the Record Store collaborator (`database.py`,
imported by main.py but not part of the source under verification)
generates a fresh document identifier on every insert.  Identifiers are
modelled as an injective encoding of the store's insertion counter. -/
def gen_doc_id (n : Nat) : String :=
  String.mk (List.replicate n 'x')

/-- Modelled from the spec: `createDocument(collection_name, fields) -> id`
is a durable insert that appends one document and returns a generated
identifier (`database.py` is not part of the source under verification). -/
def create_document (store : Store) (collection : String) (fields : StoredFields) :
    String × Store :=
  (gen_doc_id store.next_id,
   { next_id := store.next_id + 1,
     docs := store.docs ++ [{ collection := collection, fields := fields }] })

/-- Python truthiness of `api_result and api_result.get("video_url")`
(main.py line 131): a result is usable when the call returned a parsed
body whose `video_url` is a non-empty string. -/
def apiResultTruthy : Option ApiResult → Bool
  | none => false
  | some a => optTruthy a.video_url

/-- Fallback video locator for durations of at most 6 seconds (main.py line 136). -/
def short_sample_url : String := "https://samplelib.com/lib/preview/mp4/sample-5s.mp4"

/-- Fallback video locator for longer durations (main.py line 136). -/
def long_sample_url : String := "https://samplelib.com/lib/preview/mp4/sample-10s.mp4"

/-- The single fallback thumbnail locator (main.py line 137). -/
def fallback_thumbnail_url : String :=
  "https://images.unsplash.com/photo-1525547719571-a2d4ac8945e2?w=600&q=60&auto=format&fit=crop"

/-- Lines 131-139 of main.py: choose `(video_url, thumbnail_url, status)`
from the provider result, falling back to the fixed sample locators when
the result is absent or carries no usable `video_url`. -/
def select_media (api_result : Option ApiResult) (duration_sec : Int) :
    Option String × Option String × Status :=
  let fb_video := if duration_sec ≤ 6 then short_sample_url else long_sample_url
  match api_result with
  | some a =>
    if optTruthy a.video_url then
      (a.video_url, a.thumbnail_url, Status.completed)
    else
      (some fb_video, some fallback_thumbnail_url, Status.completed)
  | none => (some fb_video, some fallback_thumbnail_url, Status.completed)

/-- Observable side effects of one `create_video` invocation, in order. -/
inductive Effect
  | write_request (collection : String) (doc : VideoRequest) (id : String)
  | provider_call (prompt : String) (duration : Int) (watermark : Bool)
  | write_record (collection : String) (doc : VideoRecord)
deriving DecidableEq, Repr

/-- Result of one `create_video` invocation: the HTTP-level outcome, the
store after the run, and the ordered effect trace. -/
structure RunResult where
  outcome : Except HTTPException VideoRecord
  store : Store
  trace : List Effect
deriving Repr

/-- `create_video` (main.py lines 116-153), the `POST /api/videos`
handler, with the provider's observable outcome and the store threaded
explicitly.  The `time.sleep(0.3)` on the fallback path is cosmetic
latency with no observable value-level effect and is not modelled. -/
def create_video (req : VideoRequest) (provider : HttpOutcome) (store : Store) : RunResult :=
  if req.plan = Plan.free ∧ req.duration_sec > 20 then
    { outcome := Except.error ⟨400, "Free plan allows up to 20 seconds only."⟩,
      store := store, trace := [] }
  else
    let watermark := if req.plan = Plan.free then true else false
    let qr_available := if req.plan = Plan.pro then true else false
    let downloadable := if req.plan = Plan.pro then true else false
    let prompt := build_prompt req
    let (request_id, store1) := create_document store "videorequest" (StoredFields.request req)
    let api_result := call_videotok_api provider
    let media := select_media api_result req.duration_sec
    let record : VideoRecord :=
      { request_id := request_id
        status := media.2.2
        video_url := media.1
        thumbnail_url := media.2.1
        plan := req.plan
        qr_available := qr_available
        downloadable := downloadable }
    let (_, store2) := create_document store1 "videorecord" (StoredFields.record record)
    { outcome := Except.ok record
      store := store2
      trace := [Effect.write_request "videorequest" req request_id,
                Effect.provider_call prompt req.duration_sec watermark,
                Effect.write_record "videorecord" record] }

/-- Last index at which `c` occurs in `cs`, if any. -/
def lastIdxOf (c : Char) (cs : List Char) : Option Nat :=
  (List.range cs.length).foldl (fun acc i => if cs.get? i = some c then some i else acc) none

/-- The extension part of CPython's `os.path.splitext` (posix rules):
the suffix starting at the last `.` that lies in the basename, provided
some character of the basename strictly before that dot is not a dot. -/
def py_splitext_ext (p : String) : String :=
  let cs := p.toList
  let base : Nat := match lastIdxOf '/' cs with
    | some i => i + 1
    | none => 0
  match lastIdxOf '.' cs with
  | none => ""
  | some d =>
    if d < base then ""
    else if (List.range d).any (fun i => decide (base ≤ i) && decide (cs.get? i ≠ some '.')) then
      String.mk (cs.drop d)
    else ""

/-- Python's `needle in hay` on strings. -/
def containsSub (hay needle : String) : Bool :=
  (List.range (hay.toList.length + 1)).any
    (fun i => needle.toList.isPrefixOf (hay.toList.drop i))

/-- Lines 240-248 of main.py: determine the file extension from the
(optional) `filename` query parameter, falling back to inference from
the lowercased `Content-Type` header value. -/
def resolve_ext (filename : Option String) (content_type : String) : String :=
  let ct := py_lower content_type
  let ext := if optTruthy filename then py_lower (py_splitext_ext (filename.getD "")) else ""
  if ext = "" then
    if containsSub ct "pdf" then ".pdf"
    else if containsSub ct "wordprocessingml" then ".docx"
    else if containsSub ct "docx" then ".docx"
    else if containsSub ct "msword" then ".doc"
    else ""
  else ext

/-- Observable outcome of the document-parsing libraries on the uploaded
bytes: how `PyPDF2` would read them (a list of per-page extracted texts,
`none` when `extract_text()` returns `None`) and how `python-docx` would
read them (a list of paragraph texts); `Except.error` is an exception
raised during reading, carrying its message. -/
structure ExtractEnv where
  pdf_pages : Except String (List (Option String))
  docx_paras : Except String (List String)
deriving Repr

/-- Lines 253-255 of main.py: join the pages' texts (with `None`
replaced by `""`) with newlines and strip surrounding whitespace. -/
def pdf_text (pages : List (Option String)) : String :=
  py_strip (py_join "\n" (pages.map (fun p => p.getD "")))

/-- Lines 261-263 of main.py: join the non-empty paragraphs with
newlines and strip surrounding whitespace. -/
def docx_text (paras : List String) : String :=
  py_strip (py_join "\n" (paras.filter (fun p => decide (p ≠ ""))))

/-- Successful response body of `POST /api/upload-resume`. -/
structure UploadResult where
  text : String
  truncated : Bool
deriving DecidableEq, Repr

/-- `upload_resume` (main.py lines 235-276): dispatch on the resolved
extension, extract text via the parsing environment, reject empty
extractions, and cap the returned text at 20000 characters with a
truncation flag. -/
def upload_resume (filename : Option String) (content_type : String) (env : ExtractEnv) :
    Except HTTPException UploadResult :=
  let ext := resolve_ext filename content_type
  let textE : Except HTTPException String :=
    if ext = ".pdf" then
      match env.pdf_pages with
      | Except.ok pages => Except.ok (pdf_text pages)
      | Except.error e => Except.error ⟨400, "Failed to read PDF: " ++ py_take e 120⟩
    else if ext = ".docx" then
      match env.docx_paras with
      | Except.ok paras => Except.ok (docx_text paras)
      | Except.error e => Except.error ⟨400, "Failed to read DOCX: " ++ py_take e 120⟩
    else if ext = ".doc" then
      Except.error ⟨415, ".doc is not supported here. Please upload PDF or DOCX."⟩
    else
      Except.error ⟨415, "Unsupported file type. Please upload PDF or DOCX."⟩
  match textE with
  | Except.error e => Except.error e
  | Except.ok text0 =>
    let text := py_strip text0
    if text = "" then
      Except.error ⟨400, "Could not extract text from file."⟩
    else
      Except.ok { text := py_take text 20000, truncated := decide (text.length > 20000) }

/-! ## Helper lemmas -/

theorem gen_doc_id_inj (m n : Nat) (h : gen_doc_id m = gen_doc_id n) : m = n := by
  have h2 : (List.replicate m 'x').length = (List.replicate n 'x').length :=
    congrArg (fun s => s.data.length) h
  simpa using h2

theorem select_media_status (r : Option ApiResult) (d : Int) :
    (select_media r d).2.2 = Status.completed := by
  cases r with
  | none => rfl
  | some a =>
    simp only [select_media]
    split <;> rfl

theorem select_media_fallback (r : Option ApiResult) (d : Int)
    (h : apiResultTruthy r = false) :
    select_media r d =
      (some (if d ≤ 6 then short_sample_url else long_sample_url),
       some fallback_thumbnail_url, Status.completed) := by
  cases r with
  | none => rfl
  | some a =>
    simp only [apiResultTruthy] at h
    simp [select_media, h]

/-- The record assembled and returned by a `create_video` run that
passes the plan-policy gate. -/
def passRecord (req : VideoRequest) (provider : HttpOutcome) (store : Store) : VideoRecord :=
  { request_id := gen_doc_id store.next_id
    status := (select_media (call_videotok_api provider) req.duration_sec).2.2
    video_url := (select_media (call_videotok_api provider) req.duration_sec).1
    thumbnail_url := (select_media (call_videotok_api provider) req.duration_sec).2.1
    plan := req.plan
    qr_available := if req.plan = Plan.pro then true else false
    downloadable := if req.plan = Plan.pro then true else false }

/-- Characterization of a policy-passing `create_video` run: outcome,
final store, and effect trace. -/
theorem create_video_pass (req : VideoRequest) (provider : HttpOutcome) (store : Store)
    (h : ¬(req.plan = Plan.free ∧ req.duration_sec > 20)) :
    create_video req provider store =
      { outcome := Except.ok (passRecord req provider store)
        store := { next_id := store.next_id + 1 + 1
                   docs := (store.docs ++
                       [{ collection := "videorequest", fields := StoredFields.request req }]) ++
                     [{ collection := "videorecord",
                        fields := StoredFields.record (passRecord req provider store) }] }
        trace := [Effect.write_request "videorequest" req (gen_doc_id store.next_id),
                  Effect.provider_call (build_prompt req) req.duration_sec
                    (if req.plan = Plan.free then true else false),
                  Effect.write_record "videorecord" (passRecord req provider store)] } := by
  unfold create_video
  rw [if_neg h]
  rfl

/-! ## Claims -/

/-- Claim C1: for every request with `plan = free` and `duration_sec > 20`,
`create_video` fails with the 400 plan-violation client error and performs
zero persistence writes: the trace is empty and the store is unchanged, so
neither the request document nor any record document is written. -/
theorem claim_C1_free_over20_rejected_no_writes
    (req : VideoRequest) (provider : HttpOutcome) (store : Store)
    (hplan : req.plan = Plan.free) (hdur : req.duration_sec > 20) :
    (create_video req provider store).outcome =
        Except.error ⟨400, "Free plan allows up to 20 seconds only."⟩ ∧
    (create_video req provider store).trace = [] ∧
    (create_video req provider store).store = store := by
  unfold create_video
  rw [if_pos ⟨hplan, hdur⟩]
  exact ⟨rfl, rfl, rfl⟩

/-- Witness for C1 at `plan = free`, `duration_sec = 25`. -/
theorem claim_C1_witness :
    (({ target_role := "Engineer", duration_sec := 25, plan := Plan.free } : VideoRequest).plan
        = Plan.free) ∧
    (({ target_role := "Engineer", duration_sec := 25, plan := Plan.free } : VideoRequest).duration_sec
        > 20) ∧
    (create_video { target_role := "Engineer", duration_sec := 25, plan := Plan.free }
        HttpOutcome.transportError {}).outcome =
      Except.error ⟨400, "Free plan allows up to 20 seconds only."⟩ ∧
    (create_video { target_role := "Engineer", duration_sec := 25, plan := Plan.free }
        HttpOutcome.transportError {}).trace = [] :=
  ⟨rfl, by decide,
   (claim_C1_free_over20_rejected_no_writes _ HttpOutcome.transportError {} rfl (by decide)).1,
   (claim_C1_free_over20_rejected_no_writes _ HttpOutcome.transportError {} rfl (by decide)).2.1⟩

/-- Claim C2: for every request with `plan ∈ {premium, pro}` and
`5 ≤ duration_sec ≤ 120`, `create_video` returns a record with
`status = completed` whatever the provider outcome is; the statuses
`failed`, `queued` and `processing` are never produced. -/
theorem claim_C2_paid_always_completed
    (req : VideoRequest) (provider : HttpOutcome) (store : Store)
    (hplan : req.plan = Plan.premium ∨ req.plan = Plan.pro)
    (hlo : 5 ≤ req.duration_sec) (hhi : req.duration_sec ≤ 120) :
    ∃ rec : VideoRecord,
      (create_video req provider store).outcome = Except.ok rec ∧
      rec.status = Status.completed ∧
      rec.status ≠ Status.failed ∧
      rec.status ≠ Status.queued ∧
      rec.status ≠ Status.processing := by
  have h : ¬(req.plan = Plan.free ∧ req.duration_sec > 20) := by
    rcases hplan with h1 | h1 <;> simp [h1]
  rw [create_video_pass req provider store h]
  refine ⟨passRecord req provider store, rfl, ?_, ?_, ?_, ?_⟩ <;>
    simp [passRecord, select_media_status]

/-- Witness for C2 at `plan = premium`, `duration_sec = 10`, provider
unreachable. -/
theorem claim_C2_witness :
    (({ target_role := "Dev", duration_sec := 10, plan := Plan.premium } : VideoRequest).plan
        = Plan.premium ∨
     ({ target_role := "Dev", duration_sec := 10, plan := Plan.premium } : VideoRequest).plan
        = Plan.pro) ∧
    ∃ rec : VideoRecord,
      (create_video { target_role := "Dev", duration_sec := 10, plan := Plan.premium }
          HttpOutcome.transportError {}).outcome = Except.ok rec ∧
      rec.status = Status.completed ∧
      rec.status ≠ Status.failed ∧
      rec.status ≠ Status.queued ∧
      rec.status ≠ Status.processing :=
  ⟨Or.inl rfl,
   claim_C2_paid_always_completed _ HttpOutcome.transportError {} (Or.inl rfl)
     (by decide) (by decide)⟩

/-- Claim C3: every policy-passing invocation of `create_video` performs
exactly three effects in order: one request-document write (obtaining the
generated id, which is the returned record's `request_id`), then at most
one provider call (exactly one, in fact), then one record-document write;
in particular the request write precedes the provider call, and both
documents are durably appended to the store even when the provider fails. -/
theorem claim_C3_effect_trace
    (req : VideoRequest) (provider : HttpOutcome) (store : Store)
    (h : ¬(req.plan = Plan.free ∧ req.duration_sec > 20)) :
    (create_video req provider store).trace =
      [Effect.write_request "videorequest" req (gen_doc_id store.next_id),
       Effect.provider_call (build_prompt req) req.duration_sec
         (if req.plan = Plan.free then true else false),
       Effect.write_record "videorecord" (passRecord req provider store)] ∧
    (create_video req provider store).store.docs =
      (store.docs ++ [{ collection := "videorequest", fields := StoredFields.request req }]) ++
        [{ collection := "videorecord",
           fields := StoredFields.record (passRecord req provider store) }] ∧
    (passRecord req provider store).request_id = gen_doc_id store.next_id := by
  rw [create_video_pass req provider store h]
  exact ⟨rfl, rfl, rfl⟩

/-- Witness for C3 at `plan = free`, `duration_sec = 20` (policy passes),
provider unreachable. -/
theorem claim_C3_witness :
    ¬(({ target_role := "Dev", duration_sec := 20, plan := Plan.free } : VideoRequest).plan
          = Plan.free ∧
      ({ target_role := "Dev", duration_sec := 20, plan := Plan.free } : VideoRequest).duration_sec
          > 20) ∧
    (create_video { target_role := "Dev", duration_sec := 20, plan := Plan.free }
        HttpOutcome.transportError {}).trace =
      [Effect.write_request "videorequest"
         { target_role := "Dev", duration_sec := 20, plan := Plan.free } (gen_doc_id 0),
       Effect.provider_call
         (build_prompt { target_role := "Dev", duration_sec := 20, plan := Plan.free }) 20 true,
       Effect.write_record "videorecord"
         (passRecord { target_role := "Dev", duration_sec := 20, plan := Plan.free }
           HttpOutcome.transportError {})] :=
  ⟨by decide,
   (claim_C3_effect_trace _ HttpOutcome.transportError {} (by decide)).1⟩

/-- Claim C4: the entitlement flags of the returned record are determined
solely by `plan` and match the entitlement table: `qr_available` and
`downloadable` hold exactly when `plan = pro`, and the watermark flag
passed to the provider holds exactly when `plan = free`; this is
independent of the provider outcome (so a pro request with the provider
unreachable still gets both flags). -/
theorem claim_C4_entitlement_flags
    (req : VideoRequest) (provider : HttpOutcome) (store : Store)
    (h : ¬(req.plan = Plan.free ∧ req.duration_sec > 20)) :
    ∃ rec : VideoRecord,
      (create_video req provider store).outcome = Except.ok rec ∧
      (rec.qr_available = true ↔ req.plan = Plan.pro) ∧
      (rec.downloadable = true ↔ req.plan = Plan.pro) ∧
      ∀ p d w, Effect.provider_call p d w ∈ (create_video req provider store).trace →
        (w = true ↔ req.plan = Plan.free) := by
  rw [create_video_pass req provider store h]
  refine ⟨passRecord req provider store, rfl, ?_, ?_, ?_⟩
  · by_cases hp : req.plan = Plan.pro <;> simp [passRecord, hp]
  · by_cases hp : req.plan = Plan.pro <;> simp [passRecord, hp]
  · intro p d w hw
    simp only [List.mem_cons, List.not_mem_nil, or_false] at hw
    rcases hw with hw | hw | hw
    · exact absurd hw (by simp)
    · have hww : w = (if req.plan = Plan.free then true else false) :=
        (Effect.provider_call.injEq _ _ _ _ _ _).mp hw |>.2.2
      subst hww
      by_cases hp : req.plan = Plan.free <;> simp [hp]
    · exact absurd hw (by simp)

/-- Witness for C4 at `plan = pro`, `duration_sec = 5`, provider
unreachable: the record keeps `qr_available` and `downloadable`. -/
theorem claim_C4_witness :
    ¬(({ target_role := "Dev", duration_sec := 5, plan := Plan.pro } : VideoRequest).plan
          = Plan.free ∧
      ({ target_role := "Dev", duration_sec := 5, plan := Plan.pro } : VideoRequest).duration_sec
          > 20) ∧
    ∃ rec : VideoRecord,
      (create_video { target_role := "Dev", duration_sec := 5, plan := Plan.pro }
          HttpOutcome.transportError {}).outcome = Except.ok rec ∧
      (rec.qr_available = true ↔
        ({ target_role := "Dev", duration_sec := 5, plan := Plan.pro } : VideoRequest).plan
          = Plan.pro) ∧
      (rec.downloadable = true ↔
        ({ target_role := "Dev", duration_sec := 5, plan := Plan.pro } : VideoRequest).plan
          = Plan.pro) ∧
      ∀ p d w, Effect.provider_call p d w ∈
          (create_video { target_role := "Dev", duration_sec := 5, plan := Plan.pro }
            HttpOutcome.transportError {}).trace →
        (w = true ↔
          ({ target_role := "Dev", duration_sec := 5, plan := Plan.pro } : VideoRequest).plan
            = Plan.free) :=
  ⟨by decide, claim_C4_entitlement_flags _ HttpOutcome.transportError {} (by decide)⟩

/-- Claim C5: the fallback selection is a deterministic function of
`duration_sec` with a two-bucket rule: whenever the provider path yields
no usable result, a duration of at most 6 yields the short-sample
locator pair and a longer duration yields the long-sample locator pair
(the thumbnail locator being the fixed fallback one in both buckets). -/
theorem claim_C5_fallback_two_buckets
    (req : VideoRequest) (provider : HttpOutcome) (store : Store)
    (h : ¬(req.plan = Plan.free ∧ req.duration_sec > 20))
    (hfail : apiResultTruthy (call_videotok_api provider) = false) :
    ∃ rec : VideoRecord,
      (create_video req provider store).outcome = Except.ok rec ∧
      (req.duration_sec ≤ 6 →
        rec.video_url = some short_sample_url ∧
        rec.thumbnail_url = some fallback_thumbnail_url) ∧
      (req.duration_sec > 6 →
        rec.video_url = some long_sample_url ∧
        rec.thumbnail_url = some fallback_thumbnail_url) := by
  rw [create_video_pass req provider store h]
  refine ⟨passRecord req provider store, rfl, ?_, ?_⟩ <;> intro hd
  · simp [passRecord, select_media_fallback _ _ hfail, if_pos hd]
  · simp [passRecord, select_media_fallback _ _ hfail, if_neg (by omega : ¬req.duration_sec ≤ 6)]

/-- Witness for C5: `duration_sec = 5` yields the short-sample pair and
`duration_sec = 10` yields the long-sample pair, under a failed provider
call. -/
theorem claim_C5_witness :
    (apiResultTruthy (call_videotok_api HttpOutcome.transportError) = false) ∧
    (∃ rec : VideoRecord,
      (create_video { target_role := "Dev", duration_sec := 5, plan := Plan.pro }
          HttpOutcome.transportError {}).outcome = Except.ok rec ∧
      (({ target_role := "Dev", duration_sec := 5, plan := Plan.pro } : VideoRequest).duration_sec
          ≤ 6 →
        rec.video_url = some short_sample_url ∧
        rec.thumbnail_url = some fallback_thumbnail_url)) ∧
    (∃ rec : VideoRecord,
      (create_video { target_role := "Dev", duration_sec := 10, plan := Plan.pro }
          HttpOutcome.transportError {}).outcome = Except.ok rec ∧
      (({ target_role := "Dev", duration_sec := 10, plan := Plan.pro } : VideoRequest).duration_sec
          > 6 →
        rec.video_url = some long_sample_url ∧
        rec.thumbnail_url = some fallback_thumbnail_url)) :=
  ⟨rfl,
   (claim_C5_fallback_two_buckets _ HttpOutcome.transportError {} (by decide) rfl).elim
     (fun rec hrec => ⟨rec, hrec.1, hrec.2.1⟩),
   (claim_C5_fallback_two_buckets _ HttpOutcome.transportError {} (by decide) rfl).elim
     (fun rec hrec => ⟨rec, hrec.1, hrec.2.2⟩)⟩

/-- Claim C7: the provider client never raises — it is a total function
into `Option` in which every transport error, every exception and every
non-200 response collapses to `none` — and it returns a result exactly
when the HTTP response has status 200 with a parseable JSON body. -/
theorem claim_C7_provider_client_total
    (outcome : HttpOutcome) :
    (call_videotok_api outcome).isSome = true ↔
      ∃ body : ApiResult, outcome = HttpOutcome.response 200 (some body) := by
  cases outcome with
  | transportError => simp [call_videotok_api]
  | response code body =>
    by_cases h : code = 200
    · subst h
      cases body <;> simp [call_videotok_api]
    · simp [call_videotok_api, h]

/-- Claim C8: `create_video` is not idempotent: running it twice with the
identical request (whatever each provider outcome is) yields two records
with distinct `request_id`s, and four documents are appended to the store
(two request/record pairs, no deduplication). -/
theorem claim_C8_not_idempotent
    (req : VideoRequest) (p1 p2 : HttpOutcome) (store : Store)
    (h : ¬(req.plan = Plan.free ∧ req.duration_sec > 20)) :
    ∃ rec1 rec2 : VideoRecord,
      (create_video req p1 store).outcome = Except.ok rec1 ∧
      (create_video req p2 (create_video req p1 store).store).outcome = Except.ok rec2 ∧
      rec1.request_id ≠ rec2.request_id ∧
      (create_video req p2 (create_video req p1 store).store).store.docs.length =
        store.docs.length + 4 := by
  rw [create_video_pass req p1 store h]
  rw [create_video_pass req p2 _ h]
  refine ⟨_, _, rfl, rfl, ?_, ?_⟩
  · intro heq
    have h2 := gen_doc_id_inj _ _ (by simpa [passRecord] using heq)
    omega
  · simp

/-- Witness for C8: two pro requests from the empty store produce
distinct `request_id`s and four stored documents. -/
theorem claim_C8_witness :
    ¬(({ target_role := "Dev", duration_sec := 5, plan := Plan.pro } : VideoRequest).plan
          = Plan.free ∧
      ({ target_role := "Dev", duration_sec := 5, plan := Plan.pro } : VideoRequest).duration_sec
          > 20) ∧
    ∃ rec1 rec2 : VideoRecord,
      (create_video { target_role := "Dev", duration_sec := 5, plan := Plan.pro }
          HttpOutcome.transportError {}).outcome = Except.ok rec1 ∧
      (create_video { target_role := "Dev", duration_sec := 5, plan := Plan.pro }
          HttpOutcome.transportError
          (create_video { target_role := "Dev", duration_sec := 5, plan := Plan.pro }
            HttpOutcome.transportError {}).store).outcome = Except.ok rec2 ∧
      rec1.request_id ≠ rec2.request_id ∧
      (create_video { target_role := "Dev", duration_sec := 5, plan := Plan.pro }
          HttpOutcome.transportError
          (create_video { target_role := "Dev", duration_sec := 5, plan := Plan.pro }
            HttpOutcome.transportError {}).store).store.docs.length =
        ({} : Store).docs.length + 4 :=
  ⟨by decide,
   claim_C8_not_idempotent _ HttpOutcome.transportError HttpOutcome.transportError {} (by decide)⟩

/-- Claim C10: on the fallback path the thumbnail locator is a single
fixed URL, identical for both duration buckets: whenever the provider
path yields no usable result the returned record's `thumbnail_url` is
that constant, and any two fallback selections (whatever their
durations) agree on the thumbnail component and on the status, differing
at most in `video_url`. -/
theorem claim_C10_fallback_thumbnail_constant
    (req : VideoRequest) (provider : HttpOutcome) (store : Store)
    (h : ¬(req.plan = Plan.free ∧ req.duration_sec > 20))
    (hfail : apiResultTruthy (call_videotok_api provider) = false)
    (r2 : Option ApiResult) (d2 : Int)
    (hfail2 : apiResultTruthy r2 = false) :
    ∃ rec : VideoRecord,
      (create_video req provider store).outcome = Except.ok rec ∧
      rec.thumbnail_url = some fallback_thumbnail_url ∧
      (select_media (call_videotok_api provider) req.duration_sec).2.1 =
        (select_media r2 d2).2.1 ∧
      (select_media (call_videotok_api provider) req.duration_sec).2.2 =
        (select_media r2 d2).2.2 := by
  rw [create_video_pass req provider store h]
  refine ⟨passRecord req provider store, rfl, ?_, ?_, ?_⟩
  · simp [passRecord, select_media_fallback _ _ hfail]
  · simp [select_media_fallback _ _ hfail, select_media_fallback _ _ hfail2]
  · simp [select_media_fallback _ _ hfail, select_media_fallback _ _ hfail2]

/-- Witness for C10: fallback runs of durations 5 and 10 share the same
constant thumbnail locator. -/
theorem claim_C10_witness :
    (apiResultTruthy (call_videotok_api (HttpOutcome.response 503 none)) = false) ∧
    ∃ rec : VideoRecord,
      (create_video { target_role := "Dev", duration_sec := 5, plan := Plan.premium }
          (HttpOutcome.response 503 none) {}).outcome = Except.ok rec ∧
      rec.thumbnail_url = some fallback_thumbnail_url ∧
      (select_media (call_videotok_api (HttpOutcome.response 503 none))
          ({ target_role := "Dev", duration_sec := 5, plan := Plan.premium } : VideoRequest).duration_sec).2.1 =
        (select_media none 10).2.1 ∧
      (select_media (call_videotok_api (HttpOutcome.response 503 none))
          ({ target_role := "Dev", duration_sec := 5, plan := Plan.premium } : VideoRequest).duration_sec).2.2 =
        (select_media none 10).2.2 :=
  ⟨rfl,
   claim_C10_fallback_thumbnail_constant _ (HttpOutcome.response 503 none) {} (by decide)
     rfl none 10 rfl⟩

/-- Claim C6: the prompt builder is a pure total function concatenating
clauses in one fixed order for every request: the subject clause (the
named one when `full_name` is present, else the generic clause), the
mandatory role clause, then the optional style, tone, colors and
resume-highlights clauses each present exactly when its field is, the
resume clause truncated to the first 500 characters of `resume_text`,
and finally the fixed closing captions-and-typography clause.  In
particular, a request with `full_name` absent gets exactly the generic
subject, role and closing clauses, and a request with only a non-empty
`full_name` and `target_role` gets exactly the named subject, role and
closing clauses, with no style/tone/colors/resume clauses. -/
theorem claim_C6_prompt_clause_order :
    (∀ req : VideoRequest,
      build_prompt req =
        py_join " "
          ([if optTruthy req.full_name then
              "Create a short CV video for " ++ req.full_name.getD "" ++ "."
            else "Create a short CV video.",
            "Target role: " ++ req.target_role ++ "."] ++
           (if optTruthy req.style then ["Style: " ++ req.style.getD "" ++ "."] else []) ++
           (if optTruthy req.tone then ["Tone: " ++ req.tone.getD "" ++ "."] else []) ++
           (if optTruthy req.colors then ["Brand colors: " ++ req.colors.getD "" ++ "."] else []) ++
           (if optTruthy req.resume_text then
              ["Highlights from resume: " ++ py_take (req.resume_text.getD "") 500 ++ "..."]
            else []) ++
           ["Include dynamic captions and clean typography."])) ∧
    (∀ (role : String) (dur : Int) (p : Plan),
      build_prompt { full_name := none, target_role := role, duration_sec := dur, plan := p } =
        py_join " " ["Create a short CV video.",
                     "Target role: " ++ role ++ ".",
                     "Include dynamic captions and clean typography."]) ∧
    (∀ (name role : String) (dur : Int) (p : Plan), name ≠ "" →
      build_prompt { full_name := some name, target_role := role, duration_sec := dur,
                     plan := p } =
        py_join " " ["Create a short CV video for " ++ name ++ ".",
                     "Target role: " ++ role ++ ".",
                     "Include dynamic captions and clean typography."]) ∧
    (∀ (name role st tn co rt : String) (dur : Int) (p : Plan),
      name ≠ "" → st ≠ "" → tn ≠ "" → co ≠ "" → rt ≠ "" →
      build_prompt { full_name := some name, target_role := role, duration_sec := dur,
                     style := some st, tone := some tn, colors := some co,
                     resume_text := some rt, plan := p } =
        py_join " " ["Create a short CV video for " ++ name ++ ".",
                     "Target role: " ++ role ++ ".",
                     "Style: " ++ st ++ ".",
                     "Tone: " ++ tn ++ ".",
                     "Brand colors: " ++ co ++ ".",
                     "Highlights from resume: " ++ py_take rt 500 ++ "...",
                     "Include dynamic captions and clean typography."]) := by
  refine ⟨?_, ?_, ?_, ?_⟩
  · intro req
    unfold build_prompt
    by_cases h1 : optTruthy req.full_name = true <;>
      by_cases h2 : optTruthy req.style = true <;>
        by_cases h3 : optTruthy req.tone = true <;>
          by_cases h4 : optTruthy req.colors = true <;>
            by_cases h5 : optTruthy req.resume_text = true <;>
              simp [h1, h2, h3, h4, h5]
  · intro role dur p
    simp [build_prompt, optTruthy]
  · intro name role dur p hn
    simp [build_prompt, optTruthy, hn]
  · intro name role st tn co rt dur p hn hst htn hco hrt
    simp [build_prompt, optTruthy, hn, hst, htn, hco, hrt]

/-- Witness for C6: the named-subject case at `full_name = "Jane Doe"`,
`target_role = "Data Analyst"` with no optional fields; the
generic-subject case with `full_name` absent; and a mixed case with only
`tone` present, each evaluating to its exact prompt string. -/
theorem claim_C6_witness :
    (("Jane Doe" : String) ≠ "" ∧
     build_prompt { full_name := some "Jane Doe", target_role := "Data Analyst",
                    duration_sec := 5, plan := Plan.free } =
       "Create a short CV video for Jane Doe. Target role: Data Analyst. Include dynamic captions and clean typography.") ∧
    build_prompt { full_name := none, target_role := "Data Analyst",
                   duration_sec := 5, plan := Plan.free } =
      "Create a short CV video. Target role: Data Analyst. Include dynamic captions and clean typography." ∧
    build_prompt { full_name := none, target_role := "Dev", duration_sec := 5,
                   tone := some "warm", plan := Plan.free } =
      "Create a short CV video. Target role: Dev. Tone: warm. Include dynamic captions and clean typography." :=
  ⟨⟨by decide, by
     rw [claim_C6_prompt_clause_order.2.2.1 "Jane Doe" "Data Analyst" 5 Plan.free (by decide)]
     decide⟩,
   by
    rw [claim_C6_prompt_clause_order.2.1 "Data Analyst" 5 Plan.free]
    decide,
   by
    rw [claim_C6_prompt_clause_order.1
      { full_name := none, target_role := "Dev", duration_sec := 5,
        tone := some "warm", plan := Plan.free }]
    decide⟩

/-- Claim C9: resume extraction returns exactly the extracted plain
text — `pdf_text` of the pages read as a PDF, `docx_text` of the
paragraphs read as a DOCX, stripped — capped at its first 20000
characters, with a truncation flag that holds exactly when that full
extracted text exceeds 20000 characters; a document (PDF or DOCX) whose
stripped extracted text is empty fails with the 400 empty-extraction
client error; the legacy `.doc` format fails with a 415
unsupported-media error; and any other undetectable or unsupported file
type fails with a 415 unsupported-media error.  Every successful
response carries at most 20000 characters. -/
theorem claim_C9_upload_resume_contract :
    (∀ (fn : Option String) (ct : String) (env : ExtractEnv) (pages : List (Option String)),
      resolve_ext fn ct = ".pdf" → env.pdf_pages = Except.ok pages →
      py_strip (pdf_text pages) ≠ "" →
      upload_resume fn ct env =
        Except.ok { text := py_take (py_strip (pdf_text pages)) 20000,
                    truncated := decide ((py_strip (pdf_text pages)).length > 20000) }) ∧
    (∀ (fn : Option String) (ct : String) (env : ExtractEnv) (paras : List String),
      resolve_ext fn ct = ".docx" → env.docx_paras = Except.ok paras →
      py_strip (docx_text paras) ≠ "" →
      upload_resume fn ct env =
        Except.ok { text := py_take (py_strip (docx_text paras)) 20000,
                    truncated := decide ((py_strip (docx_text paras)).length > 20000) }) ∧
    (∀ (fn : Option String) (ct : String) (env : ExtractEnv) (pages : List (Option String)),
      resolve_ext fn ct = ".pdf" → env.pdf_pages = Except.ok pages →
      py_strip (pdf_text pages) = "" →
      upload_resume fn ct env = Except.error ⟨400, "Could not extract text from file."⟩) ∧
    (∀ (fn : Option String) (ct : String) (env : ExtractEnv) (paras : List String),
      resolve_ext fn ct = ".docx" → env.docx_paras = Except.ok paras →
      py_strip (docx_text paras) = "" →
      upload_resume fn ct env = Except.error ⟨400, "Could not extract text from file."⟩) ∧
    (∀ (fn : Option String) (ct : String) (env : ExtractEnv),
      resolve_ext fn ct = ".doc" →
      upload_resume fn ct env =
        Except.error ⟨415, ".doc is not supported here. Please upload PDF or DOCX."⟩) ∧
    (∀ (fn : Option String) (ct : String) (env : ExtractEnv),
      resolve_ext fn ct ≠ ".pdf" → resolve_ext fn ct ≠ ".docx" → resolve_ext fn ct ≠ ".doc" →
      upload_resume fn ct env =
        Except.error ⟨415, "Unsupported file type. Please upload PDF or DOCX."⟩) ∧
    (∀ (fn : Option String) (ct : String) (env : ExtractEnv) (r : UploadResult),
      upload_resume fn ct env = Except.ok r → r.text.length ≤ 20000) := by
  refine ⟨?_, ?_, ?_, ?_, ?_, ?_, ?_⟩
  · intro fn ct env pages hext hpg hne
    simp only [upload_resume]
    rw [if_pos hext, hpg]
    simp [hne]
  · intro fn ct env paras hext hpa hne
    have c1 : ¬ resolve_ext fn ct = ".pdf" := by rw [hext]; decide
    simp only [upload_resume]
    rw [if_neg c1, if_pos hext, hpa]
    simp [hne]
  · intro fn ct env pages hext hpg hemp
    simp only [upload_resume]
    rw [if_pos hext, hpg]
    simp [hemp]
  · intro fn ct env paras hext hpa hemp
    have c1 : ¬ resolve_ext fn ct = ".pdf" := by rw [hext]; decide
    simp only [upload_resume]
    rw [if_neg c1, if_pos hext, hpa]
    simp [hemp]
  · intro fn ct env hext
    simp only [upload_resume, hext]
    rfl
  · intro fn ct env h1 h2 h3
    simp only [upload_resume]
    rw [if_neg h1, if_neg h2, if_neg h3]
  · intro fn ct env r h
    simp only [upload_resume] at h
    by_cases c1 : resolve_ext fn ct = ".pdf"
    · rw [if_pos c1] at h
      cases hpg : env.pdf_pages with
      | error e => rw [hpg] at h; simp at h
      | ok pages =>
        rw [hpg] at h
        by_cases hemp : py_strip (pdf_text pages) = ""
        · simp [hemp] at h
        · simp only [hemp, if_false, reduceCtorEq, Except.ok.injEq] at h
          rw [← h]; simp [py_take]
    · rw [if_neg c1] at h
      by_cases c2 : resolve_ext fn ct = ".docx"
      · rw [if_pos c2] at h
        cases hpa : env.docx_paras with
        | error e => rw [hpa] at h; simp at h
        | ok paras =>
          rw [hpa] at h
          by_cases hemp : py_strip (docx_text paras) = ""
          · simp [hemp] at h
          · simp only [hemp, if_false, reduceCtorEq, Except.ok.injEq] at h
            rw [← h]; simp [py_take]
      · rw [if_neg c2] at h
        by_cases c3 : resolve_ext fn ct = ".doc"
        · rw [if_pos c3] at h; simp at h
        · rw [if_neg c3] at h; simp at h

/-- Witness for C9: a PDF that extracts to pages hello/None/world
succeeds with exactly the joined stripped text and `truncated = false`;
a DOCX with paragraphs a/(empty)/b succeeds with exactly the filtered
joined text; a PDF whose single page holds only whitespace, and a DOCX
whose only paragraph is empty, are rejected with the 400
empty-extraction client error; a `.doc` upload and an undetectable type
are rejected with 415 unsupported-media errors; and the successful
response is within the 20000-character cap. -/
theorem claim_C9_witness :
    (py_strip (pdf_text [some "hello", none, some "world"]) ≠ "" ∧
     upload_resume none "application/pdf"
        { pdf_pages := Except.ok [some "hello", none, some "world"], docx_paras := Except.ok [] } =
       Except.ok { text := py_take (py_strip (pdf_text [some "hello", none, some "world"])) 20000,
                   truncated :=
                     decide ((py_strip (pdf_text [some "hello", none, some "world"])).length > 20000) } ∧
     py_take (py_strip (pdf_text [some "hello", none, some "world"])) 20000 = "hello\n\nworld" ∧
     decide ((py_strip (pdf_text [some "hello", none, some "world"])).length > 20000) = false) ∧
    (resolve_ext (some "cv.docx") "" = ".docx" ∧
     py_strip (docx_text ["a", "", "b"]) ≠ "" ∧
     upload_resume (some "cv.docx") ""
        { pdf_pages := Except.ok [], docx_paras := Except.ok ["a", "", "b"] } =
       Except.ok { text := py_take (py_strip (docx_text ["a", "", "b"])) 20000,
                   truncated := decide ((py_strip (docx_text ["a", "", "b"])).length > 20000) } ∧
     py_take (py_strip (docx_text ["a", "", "b"])) 20000 = "a\nb") ∧
    (py_strip (pdf_text [some "  "]) = "" ∧
     upload_resume (some "cv.pdf") "application/octet-stream"
        { pdf_pages := Except.ok [some "  "], docx_paras := Except.ok [] } =
       Except.error ⟨400, "Could not extract text from file."⟩) ∧
    (py_strip (docx_text [""]) = "" ∧
     upload_resume (some "cv.docx") ""
        { pdf_pages := Except.ok [], docx_paras := Except.ok [""] } =
       Except.error ⟨400, "Could not extract text from file."⟩) ∧
    (resolve_ext (some "cv.doc") "application/octet-stream" = ".doc" ∧
     upload_resume (some "cv.doc") "application/octet-stream"
        { pdf_pages := Except.ok [], docx_paras := Except.ok [] } =
       Except.error ⟨415, ".doc is not supported here. Please upload PDF or DOCX."⟩) ∧
    (upload_resume none "application/octet-stream"
        { pdf_pages := Except.ok [], docx_paras := Except.ok [] } =
       Except.error ⟨415, "Unsupported file type. Please upload PDF or DOCX."⟩) ∧
    ("hello\n\nworld" : String).length ≤ 20000 :=
  ⟨⟨by decide,
    claim_C9_upload_resume_contract.1 none "application/pdf"
      { pdf_pages := Except.ok [some "hello", none, some "world"], docx_paras := Except.ok [] }
      [some "hello", none, some "world"] (by decide) rfl (by decide),
    by decide, by decide⟩,
   ⟨by decide, by decide,
    claim_C9_upload_resume_contract.2.1 (some "cv.docx") ""
      { pdf_pages := Except.ok [], docx_paras := Except.ok ["a", "", "b"] }
      ["a", "", "b"] (by decide) rfl (by decide),
    by decide⟩,
   ⟨by decide,
    claim_C9_upload_resume_contract.2.2.1 (some "cv.pdf") "application/octet-stream"
      { pdf_pages := Except.ok [some "  "], docx_paras := Except.ok [] } [some "  "]
      (by decide) rfl (by decide)⟩,
   ⟨by decide,
    claim_C9_upload_resume_contract.2.2.2.1 (some "cv.docx") ""
      { pdf_pages := Except.ok [], docx_paras := Except.ok [""] } [""]
      (by decide) rfl (by decide)⟩,
   ⟨by decide,
    claim_C9_upload_resume_contract.2.2.2.2.1 (some "cv.doc") "application/octet-stream"
      { pdf_pages := Except.ok [], docx_paras := Except.ok [] } (by decide)⟩,
   claim_C9_upload_resume_contract.2.2.2.2.2.1 none "application/octet-stream"
      { pdf_pages := Except.ok [], docx_paras := Except.ok [] }
      (by decide) (by decide) (by decide),
   claim_C9_upload_resume_contract.2.2.2.2.2.2 none "application/pdf"
      { pdf_pages := Except.ok [some "hello", none, some "world"], docx_paras := Except.ok [] }
      { text := "hello\n\nworld", truncated := false } rfl⟩
